import Mathlib

/-!
Verification of the avr-llm-openai-assistant core (src/index.js, first
variant, together with the handler-resolution helper shipped alongside the
avr_functions handlers).  The JavaScript source is shallowly embedded:

* the per-thread `activeRuns` flag read by `waitForActiveRun` is modelled as
  a function from poll index to the flag value observed at that poll (other
  tasks may mutate it between sleeps);
* remote API calls (run listing, run cancellation, tool-output submission)
  are instrumented: the embedding records how many of each the code issues,
  so that the absence of a call is provable;
* the Express response object is a `Channel` holding the frames written so
  far, its `writableEnded` flag, and a `writeError` flag modelling a broken
  underlying socket whose `write` throws;
* the event stream consumed by `handleStream` is a list of events plus a
  boolean saying whether iteration ends by throwing (a stream-level
  exception after the listed events were delivered); the continuation
  stream returned by each `submitToolOutputs` call is attached to the tool
  call that triggers that submission;
* `handleStream` is recursive exactly as in the source: the recursive
  resumption after a tool-output submission re-enters `handleStream`, and
  the `finally` block that force-clears the active flag belongs to every
  invocation (the model counts how often it runs).
-/

namespace Avr

/-- An output frame `{type, content}` written to the client channel. -/
structure Frame where
  type : String
  content : String
  deriving DecidableEq, Repr

/-- The Express response: `writableEnded` mirrors `res.writableEnded`,
`frames` the JSON objects written so far, and `writeError` models an
underlying socket whose `res.write` throws (e.g. a disconnected client). -/
structure Channel where
  writableEnded : Bool
  writeError : Bool
  frames : List Frame
  deriving DecidableEq, Repr

/-- The raw `res.write`: fails (throws) when the socket is broken. -/
def Channel.write (res : Channel) (data : Frame) : Except String Channel :=
  if res.writeError then Except.error "write error"
  else Except.ok { res with frames := res.frames ++ [data] }

/-- The raw `res.end()`: marks the channel ended. -/
def Channel.endCh (res : Channel) : Channel :=
  { res with writableEnded := true }

/-- `sendStreamResponse` (src/index.js lines 222-230): skip the write when
`res.writableEnded`; otherwise write, catching (and only logging) any
exception the write throws. -/
def sendStreamResponse (res : Channel) (data : Frame) : Channel :=
  if !res.writableEnded then
    match res.write data with
    | Except.ok res2 => res2
    | Except.error _ => res
  else res

/-- Result of one `waitForActiveRun` call, instrumented.  `sleptMs` is the
total of the milliseconds passed to `sleep`; `checks` counts reads of
`activeRuns[threadId]`; `listCalls` and `cancelCalls` count remote
`runs.list` / `runs.cancel` API calls issued by the function; `setsFlag`
records a write the function performs to `activeRuns[threadId]`, if any. -/
structure WaitResult where
  ok : Bool
  sleptMs : Nat
  checks : Nat
  listCalls : Nat
  cancelCalls : Nat
  setsFlag : Option Bool
  deriving DecidableEq, Repr

/-- Loop body of `waitForActiveRun` (src/index.js lines 31-38): `fuel`
iterations remain, `i` is the current poll index into the flag history. -/
def waitForActiveRunGo (flag : Nat → Bool) (delay : Nat) : Nat → Nat → WaitResult
  | 0, _ =>
    { ok := false, sleptMs := 0, checks := 0, listCalls := 0,
      cancelCalls := 0, setsFlag := none }
  | fuel + 1, i =>
    if flag i = false then
      { ok := true, sleptMs := 0, checks := 1, listCalls := 0,
        cancelCalls := 0, setsFlag := none }
    else
      let r := waitForActiveRunGo flag delay fuel (i + 1)
      { r with sleptMs := delay + r.sleptMs, checks := r.checks + 1 }

/-- `waitForActiveRun(threadId, maxRetries, delay)` (src/index.js lines
30-41).  The `for (let retries = 0; retries < maxRetries; retries++)` loop
runs `max 0 maxRetries` times (a non-positive bound yields zero
iterations), checking the local flag each iteration and sleeping `delay`
after every check that still sees the flag set; it returns `true` on the
first cleared flag and `false` once the iterations are exhausted. -/
def waitForActiveRun (flag : Nat → Bool) (maxRetries : Int) (delay : Nat) :
    WaitResult :=
  waitForActiveRunGo flag delay maxRetries.toNat 0

/-- Outcome of the admission gate in `handlePromptStream` (src/index.js
lines 250-254). -/
inductive PromptOutcome where
  | rejectedActive
  | proceeded
  deriving DecidableEq, Repr

/-- The admission gate of `handlePromptStream`: when `waitForActiveRun`
reports `false` the request is rejected with the 400 run-already-active
response; otherwise the handler proceeds. -/
def admissionGate (ok : Bool) : PromptOutcome :=
  if ok then PromptOutcome.proceeded else PromptOutcome.rejectedActive

/-! ### Session registry: thread creation under interleaving

`handlePromptStream` (src/index.js lines 243-248) runs, per request:
check `threadIds[uuid]`; if absent, `await openai.beta.threads.create()`
(a suspension point) and then store the returned id.  Two concurrent
requests for the same unseen uuid may both pass the check before either
stores.  We model each request as a small task stepped by a scheduler. -/

/-- Program counter of one request inside the thread-creation section:
before the check, suspended inside the `threads.create()` call, or done. -/
inductive TaskPc where
  | start
  | creating (h : Nat)
  | done
  deriving DecidableEq, Repr

/-- Shared registry state: `thread` is `threadIds[uuid]` (handles named by
creation index), `created` counts remote `threads.create()` calls issued,
`pcs` the per-task program counters. -/
structure RegState where
  thread : Option Nat
  created : Nat
  pcs : List TaskPc
  deriving DecidableEq, Repr

/-- One scheduler step of task `i`: at `start` the task checks
`threadIds[uuid]` and either reuses the existing handle or issues the
remote create call (entering `creating`); at `creating` the create call
returns and the task stores its handle. -/
def stepTask (s : RegState) (i : Nat) : RegState :=
  match s.pcs.get? i with
  | some TaskPc.start =>
    match s.thread with
    | some _ => { s with pcs := s.pcs.set i TaskPc.done }
    | none =>
      { s with
        pcs := s.pcs.set i (TaskPc.creating s.created),
        created := s.created + 1 }
  | some (TaskPc.creating h) =>
    { s with thread := some h, pcs := s.pcs.set i TaskPc.done }
  | _ => s

/-- Run a schedule (a list of task indices) over the registry state. -/
def runSched (s : RegState) (sched : List Nat) : RegState :=
  sched.foldl stepTask s

/-- Initial registry state for `n` concurrent first-requests on one unseen
session identifier. -/
def initReg (n : Nat) : RegState :=
  { thread := none, created := 0, pcs := List.replicate n TaskPc.start }

/-! ### Stream events, tool calls and the dispatcher -/

/-- One entry of `chunk.data.delta.content` in a `thread.message.delta`
event: either a text part carrying `content.text.value`, or a part of a
different type (the source only acts when the optional-chained type
field of the first entry equals the string text). -/
inductive Content where
  | text (value : String)
  | nonText
  deriving DecidableEq, Repr

/-- The parsed-argument object of a tool call: the JSON object as an
association list of fields (only the shape needed by the source, which
sets one field and passes the object on). -/
abbrev Args := List (String × String)

/-- JavaScript property assignment `function_args.uuid = uuid`: replace the
field when present, append it otherwise. -/
def setField (a : Args) (k v : String) : Args :=
  if (a.map Prod.fst).contains k then
    a.map (fun p => if p.fst = k then (k, v) else p)
  else a ++ [(k, v)]

/-- A tool call from a `requires_action` event.  `args` is the result of
`JSON.parse(tool_call.function.arguments)`: `none` when the argument
string is not valid JSON (the parse throws), `some` the parsed object
otherwise. -/
structure ToolCall where
  id : String
  ctype : String
  name : String
  args : Option Args

/-- What invoking one handler module does: throw, return a falsy value, or
return a truthy value whose `.data` field serializes to `d`. -/
inductive HandlerOutcome where
  | throws (msg : String)
  | falsy
  | success (d : String)

/-- A handler source (a directory of modules): `none` when no module of
that name exists (the dynamic import throws), otherwise the exported
handler function of the module. -/
abbrev HandlerSource := String → Option (Args → HandlerOutcome)

/-- Read-only request context: the session uuid, whether `threadIds[uuid]`
is set (the condition the `finally` guard of `handleStream` tests; it is
always set by the time `handleStream` runs and never changes during it),
and the two handler sources, `avr_functions` (internal, probed first) and
`functions` (external, probed second). -/
structure Config where
  uuid : String
  threadKnown : Bool
  avr : HandlerSource
  ext : HandlerSource

/-- A single `tool_outputs` array entry: the serialized `output` is either
the serialization of `result.data` or the serialized failure object
carrying a status of failure and a message. -/
inductive ToolOutput where
  | data (d : String)
  | failure (message : String)
  deriving DecidableEq, Repr

/-- One `submitToolOutputs` call: the batch of `(tool_call_id, output)`
entries passed in its `tool_outputs` array. -/
structure Submission where
  outputs : List (String × ToolOutput)
  deriving DecidableEq, Repr

/-- An event of the remote run stream (`chunk.event` discriminates).  A
`requiresAction` event carries the `required_action.type` string and, for
each tool call, the continuation stream (events plus a stream-error flag)
that the remote service returns from the submission this call triggers. -/
inductive Event where
  | runCreated
  | messageDelta (content : List Content)
  | requiresAction (ratype : String) (calls : List (ToolCall × List Event × Bool))
  | runCompleted
  | runFailed
  | unknown

/-- The mutable state threaded through `handleStream`: the response
channel, the `activeRuns` flag of the session, how many times the `finally`
guard cleared that flag, the `submitToolOutputs` calls issued so far, and
which handler modules were invoked (source directory, function name). -/
structure ProcState where
  res : Channel
  active : Bool
  clears : Nat
  submissions : List Submission
  invoked : List (String × String)

/-- The `finally` block of `handleStream` (src/index.js lines 200-205):
when `threadIds[uuid]` is set, write `false` into the `activeRuns`
entry of the session. -/
def clearFinally (cfg : Config) (st : ProcState) : ProcState :=
  if cfg.threadKnown then
    { st with active := false, clears := st.clears + 1 }
  else st

/-- The handler of a stream-level exception (src/index.js lines 193-199):
emit the stream-connection error frame and end the response. -/
def streamErrorHandler (st : ProcState) : ProcState :=
  { st with
    res := (sendStreamResponse st.res
      { type := "error", content := "Stream connection error" }).endCh }

/-- `handleFunctionError` (src/index.js lines 91-111): submit the failure
tool output (status failure plus message) for the call; the subsequent
resume statement reads the identifier `uuid`, which is not in scope in
this function, so the thrown ReferenceError is caught by the surrounding
catch, which ends the response with status 500 — the continuation stream
returned by the submission is never consumed. -/
def handleFunctionError (tc : ToolCall) (errorMessage : String)
    (st : ProcState) : ProcState :=
  { st with
    submissions :=
      st.submissions ++ [{ outputs := [(tc.id, ToolOutput.failure errorMessage)] }],
    res := st.res.endCh }

mutual

/-- `handleStream` (src/index.js lines 113-206): iterate the event stream
(`handleLoop`), then run the `finally` guard.  Every invocation — the
outermost one and each recursive resumption after a tool-output
submission — executes its own `finally` guard. -/
def handleStream (cfg : Config) (events : List Event) (serr : Bool)
    (st : ProcState) : ProcState :=
  clearFinally cfg (handleLoop cfg events serr st)
termination_by (sizeOf events, 1)

/-- The `for await (const chunk of stream)` loop of `handleStream`.  When
iteration ends by a stream-level exception (`serr`), the catch emits the
stream-connection error frame and ends the response. -/
def handleLoop (cfg : Config) (events : List Event) (serr : Bool)
    (st : ProcState) : ProcState :=
  match events with
  | [] => if serr then streamErrorHandler st else st
  | e :: rest => handleLoop cfg rest serr (handleEvent cfg e st)
termination_by (sizeOf events, 0)

/-- The `switch (chunk.event)` body of `handleStream` (src/index.js lines
123-184).  The waiting-message timer armed on `thread.run.created` is
real-time behaviour outside this model (its arming and cancellation have
no other observable effect); per-event processing in this model never
throws, so the inner per-event catch is unreachable. -/
def handleEvent (cfg : Config) (e : Event) (st : ProcState) : ProcState :=
  match e with
  | Event.runCreated => st
  | Event.messageDelta content =>
    match content.head? with
    | some (Content.text v) =>
      { st with
        res := sendStreamResponse st.res { type := "text", content := v } }
    | _ => st
  | Event.requiresAction ratype calls =>
    if ratype = "submit_tool_outputs" then handleToolOutputs cfg calls st
    else
      { st with
        res := sendStreamResponse st.res
          { type := "error", content := "Unsupported action type" } }
  | Event.runCompleted =>
    { st with
      res := (sendStreamResponse st.res
        { type := "status", content := "completed" }).endCh }
  | Event.runFailed =>
    { st with
      res := (sendStreamResponse st.res
        { type := "error", content := "Assistant run failed" }).endCh }
  | Event.unknown => st
termination_by (sizeOf e, 0)

/-- `handleToolOutputs` (src/index.js lines 208-220): for each tool call of
type `function`, run `handleFunctionCall`.  In this model
`handleFunctionCall` never throws, so the surrounding catch (which would
re-submit via `handleFunctionError`) is unreachable. -/
def handleToolOutputs (cfg : Config)
    (calls : List (ToolCall × List Event × Bool)) (st : ProcState) :
    ProcState :=
  match calls with
  | [] => st
  | (tc, cont, cerr) :: rest =>
    let st1 :=
      if tc.ctype = "function" then handleFunctionCall cfg tc cont cerr st
      else st
    handleToolOutputs cfg rest st1
termination_by (sizeOf calls, 0)

/-- `handleFunctionCall` (src/index.js lines 43-89): parse the arguments
(already-parsed `none` means the `JSON.parse` threw, routed to
`handleFunctionError` with message "Invalid function arguments"); set the
`uuid` field; probe the internal `avr_functions` source — a missing
module, a throwing handler or a falsy result all leave `result` null and
fall through to the external probe. -/
def handleFunctionCall (cfg : Config) (tc : ToolCall) (cont : List Event)
    (cerr : Bool) (st : ProcState) : ProcState :=
  match tc.args with
  | none => handleFunctionError tc "Invalid function arguments" st
  | some args =>
    let args1 := setField args "uuid" cfg.uuid
    match cfg.avr tc.name with
    | none => handleFunctionCallExt cfg tc args1 cont cerr st
    | some h =>
      let st1 :=
        { st with invoked := st.invoked ++ [("avr_functions", tc.name)] }
      match h args1 with
      | HandlerOutcome.success d =>
        submitAndResume cfg tc.id (ToolOutput.data d) cont cerr st1
      | HandlerOutcome.throws _ => handleFunctionCallExt cfg tc args1 cont cerr st1
      | HandlerOutcome.falsy => handleFunctionCallExt cfg tc args1 cont cerr st1
termination_by (sizeOf cont, 4)

/-- The external probe of `handleFunctionCall` (src/index.js lines 65-73),
reached whenever the internal probe left `result` null: a missing external
module or a throwing external handler routes to `handleFunctionError` with
message "Function execution failed"; a falsy external result proceeds to
the submission with the failure output of the same message. -/
def handleFunctionCallExt (cfg : Config) (tc : ToolCall) (args1 : Args)
    (cont : List Event) (cerr : Bool) (st : ProcState) : ProcState :=
  match cfg.ext tc.name with
  | none => handleFunctionError tc "Function execution failed" st
  | some h =>
    let st1 := { st with invoked := st.invoked ++ [("functions", tc.name)] }
    match h args1 with
    | HandlerOutcome.throws _ =>
      handleFunctionError tc "Function execution failed" st1
    | HandlerOutcome.falsy =>
      submitAndResume cfg tc.id
        (ToolOutput.failure "Function execution failed") cont cerr st1
    | HandlerOutcome.success d =>
      submitAndResume cfg tc.id (ToolOutput.data d) cont cerr st1
termination_by (sizeOf cont, 3)

/-- The `submitToolOutputs` call at the end of `handleFunctionCall`
(src/index.js lines 75-88): submit a one-element `tool_outputs` batch for
this call and re-enter `handleStream` on the continuation stream the
submission returns (the source does not await this recursive call; the
model serializes it). -/
def submitAndResume (cfg : Config) (callId : String) (out : ToolOutput)
    (cont : List Event) (cerr : Bool) (st : ProcState) : ProcState :=
  let st1 :=
    { st with submissions := st.submissions ++ [{ outputs := [(callId, out)] }] }
  handleStream cfg cont cerr st1
termination_by (sizeOf cont, 2)

end

/-- The resolution result of the standalone resolver: the directory whose
module was picked. -/
inductive HandlerPath where
  | avrPath (name : String)
  | extPath (name : String)
  deriving DecidableEq, Repr

/-- `getFunctionHandler` (loadFunctions.js, shipped next to the
avr_functions handlers): probe `avr_functions/<name>.js` then
`functions/<name>.js` by file existence, take the first existing path, and
throw when neither exists. -/
def getFunctionHandler (avrExists extExists : String → Bool) (name : String) :
    Except String HandlerPath :=
  if avrExists name then Except.ok (HandlerPath.avrPath name)
  else if extExists name then Except.ok (HandlerPath.extPath name)
  else
    Except.error
      ("function " ++ name ++ " not found in any available directory")

/-- A fresh, healthy response channel: nothing written, not ended, writes
succeed. -/
def freshChannel : Channel :=
  { writableEnded := false, writeError := false, frames := [] }

/-- Processor state at the start of a client turn: flag set by
`handlePromptStream`, nothing written, submitted or invoked yet. -/
def initState : ProcState :=
  { res := freshChannel, active := true, clears := 0,
    submissions := [], invoked := [] }

/-! ### Concrete scenarios used by counterexamples and witnesses -/

/-- Scenario: the internal source has a module f whose handler returns the
truthy payload D. -/
def nestedCfg : Config :=
  { uuid := "u", threadKnown := true,
    avr := fun n =>
      if n = "f" then some (fun _ => HandlerOutcome.success "D") else none,
    ext := fun _ => none }

/-- A function tool call for module f with valid (empty-object) args. -/
def nestedCall : ToolCall :=
  { id := "c1", ctype := "function", name := "f", args := some [] }

/-- A requires-action event with one successful tool call whose
continuation stream ends the run with a completed event. -/
def nestedEvent : Event :=
  Event.requiresAction "submit_tool_outputs"
    [(nestedCall, [Event.runCompleted], false)]

/-- Scenario: no handler module exists in either source. -/
def tableCfg : Config :=
  { uuid := "u", threadKnown := true, avr := fun _ => none,
    ext := fun _ => none }

/-- Scenario: the internal source has a module g (never reached when the
arguments fail to parse). -/
def badArgsCfg : Config :=
  { uuid := "u", threadKnown := true,
    avr := fun n =>
      if n = "g" then some (fun _ => HandlerOutcome.success "G") else none,
    ext := fun _ => none }

/-- Scenario: two internal modules f1 and f2 returning payloads d1, d2. -/
def twoCallsCfg (d1 d2 : String) : Config :=
  { uuid := "u", threadKnown := true,
    avr := fun n =>
      if n = "f1" then some (fun _ => HandlerOutcome.success d1)
      else if n = "f2" then some (fun _ => HandlerOutcome.success d2)
      else none,
    ext := fun _ => none }

/-- A requires-action event with two function tool calls whose continuation
streams each deliver one text delta (v1 and v2 respectively). -/
def twoCallsEvent (v1 v2 : String) : Event :=
  Event.requiresAction "submit_tool_outputs"
    [({ id := "c1", ctype := "function", name := "f1", args := some [] },
      [Event.messageDelta [Content.text v1]], false),
     ({ id := "c2", ctype := "function", name := "f2", args := some [] },
      [Event.messageDelta [Content.text v2]], false)]

/-- Scenario: both sources have a module win; the internal one returns the
truthy payload dIn, the external one dExt. -/
def resolveCfg (dIn dExt : String) : Config :=
  { uuid := "u", threadKnown := true,
    avr := fun n =>
      if n = "win" then some (fun _ => HandlerOutcome.success dIn) else none,
    ext := fun n =>
      if n = "win" then some (fun _ => HandlerOutcome.success dExt)
      else none }

/-- A function tool call for the module present in both sources. -/
def winCall : ToolCall :=
  { id := "cw", ctype := "function", name := "win", args := some [] }

/-- A function tool call for a module present in neither source. -/
def absentCall : ToolCall :=
  { id := "cn", ctype := "function", name := "zzz", args := some [] }

/-- Scenario: the internal module f returns a falsy value while the
external module f returns the truthy payload X. -/
def overrideCfg : Config :=
  { uuid := "u", threadKnown := true,
    avr := fun n =>
      if n = "f" then some (fun _ => HandlerOutcome.falsy) else none,
    ext := fun n =>
      if n = "f" then some (fun _ => HandlerOutcome.success "X") else none }

/-- A function tool call for the module both sources carry. -/
def overrideCall : ToolCall :=
  { id := "c1", ctype := "function", name := "f", args := some [] }

/-- A function tool call for a module neither source carries. -/
def overrideAbsentCall : ToolCall :=
  { id := "c2", ctype := "function", name := "zzz", args := some [] }

/-! ### Helper lemmas about the admission loop and the registry -/

/-- When every poll sees the flag set, the loop performs all its
iterations, sleeps after each of them, and touches no remote API. -/
theorem waitForActiveRunGo_all_true (flag : Nat → Bool) (delay : Nat)
    (h : ∀ i, flag i = true) (fuel : Nat) : ∀ i,
    waitForActiveRunGo flag delay fuel i =
      { ok := false, sleptMs := fuel * delay, checks := fuel, listCalls := 0,
        cancelCalls := 0, setsFlag := none } := by
  induction fuel with
  | zero => intro i; simp [waitForActiveRunGo]
  | succ n ih =>
    intro i
    simp [waitForActiveRunGo, h, ih (i + 1), Nat.succ_mul]
    omega

/-- The admission loop never issues a remote run-listing call. -/
theorem waitForActiveRunGo_listCalls_zero (flag : Nat → Bool) (delay : Nat)
    (fuel : Nat) : ∀ i,
    (waitForActiveRunGo flag delay fuel i).listCalls = 0 := by
  induction fuel with
  | zero => intro i; simp [waitForActiveRunGo]
  | succ n ih =>
    intro i
    by_cases hf : flag i = false
    · simp [waitForActiveRunGo, hf]
    · simp [waitForActiveRunGo, hf, ih (i + 1)]

/-- The admission loop succeeds exactly when some poll within the iteration
budget observes the local flag cleared. -/
theorem waitForActiveRunGo_ok_iff (flag : Nat → Bool) (delay : Nat)
    (fuel : Nat) : ∀ i,
    ((waitForActiveRunGo flag delay fuel i).ok = true ↔
      ∃ j, j < fuel ∧ flag (i + j) = false) := by
  induction fuel with
  | zero => intro i; simp [waitForActiveRunGo]
  | succ n ih =>
    intro i
    by_cases hf : flag i = false
    · constructor
      · intro _; exact ⟨0, Nat.succ_pos n, by simpa using hf⟩
      · intro _; simp [waitForActiveRunGo, hf]
    · have : (waitForActiveRunGo flag delay (n + 1) i).ok =
        (waitForActiveRunGo flag delay n (i + 1)).ok := by
        simp [waitForActiveRunGo, hf]
      rw [this, ih (i + 1)]
      constructor
      · rintro ⟨j, hj, hfl⟩
        exact ⟨j + 1, by omega,
          by simpa [Nat.add_assoc, Nat.add_comm 1 j] using hfl⟩
      · rintro ⟨j, hj, hfl⟩
        cases j with
        | zero => simp at hfl; exact absurd hfl hf
        | succ k =>
          exact ⟨k, by omega, by
            have : i + 1 + k = i + (k + 1) := by omega
            rw [this]; exact hfl⟩

/-- A scheduler step never issues a create call, and never loses the stored
handle, once `threadIds[uuid]` holds one. -/
theorem stepTask_preserves_handle (s : RegState) (i : Nat)
    (h : s.thread.isSome = true) :
    (stepTask s i).created = s.created ∧
    (stepTask s i).thread.isSome = true := by
  unfold stepTask
  rcases hs : s.thread with _ | t
  · rw [hs] at h; simp at h
  · cases hpc : s.pcs.get? i with
    | none => simp [hs]
    | some pc =>
      cases pc with
      | start => simp [hs]
      | creating hh => simp [hs]
      | done => simp [hs]

/-! ### Claim theorems -/

/-- Claim C1 (amended).  When the active flag stays true at every poll,
`waitForActiveRun` sleeps the fixed delay once per configured retry (a
total of maxRetries times the delay) and returns a failure result, and the
caller rejects the request; but it issues no remote cancel call and
performs no write to the flag, which therefore remains true — contrary to
the frozen claim, which expects a cancellation attempt and a cleared
flag. -/
theorem waitForActiveRun_exhausted_no_cancel (flag : Nat → Bool)
    (maxRetries : Int) (delay : Nat) (h : ∀ i, flag i = true) :
    (waitForActiveRun flag maxRetries delay).ok = false ∧
    (waitForActiveRun flag maxRetries delay).sleptMs =
      maxRetries.toNat * delay ∧
    (waitForActiveRun flag maxRetries delay).cancelCalls = 0 ∧
    (waitForActiveRun flag maxRetries delay).setsFlag = none ∧
    admissionGate (waitForActiveRun flag maxRetries delay).ok =
      PromptOutcome.rejectedActive := by
  simp [waitForActiveRun, waitForActiveRunGo_all_true flag delay h,
        admissionGate]

/-- Witness for C1 at the spec test vector: maxRetries 3, delay 10, flag
constantly true. -/
theorem waitForActiveRun_exhausted_no_cancel_witness :
    (waitForActiveRun (fun _ => true) 3 10).ok = false ∧
    (waitForActiveRun (fun _ => true) 3 10).sleptMs = Int.toNat 3 * 10 ∧
    (waitForActiveRun (fun _ => true) 3 10).cancelCalls = 0 ∧
    (waitForActiveRun (fun _ => true) 3 10).setsFlag = none ∧
    admissionGate (waitForActiveRun (fun _ => true) 3 10).ok =
      PromptOutcome.rejectedActive :=
  waitForActiveRun_exhausted_no_cancel (fun _ => true) 3 10 (fun _ => rfl)

/-- Counterexample to C1 as frozen: at maxRetries 3 and delay 10 with the
flag never clearing, admission does wait 30 ms and return failure, but it
makes no cancellation attempt (zero cancel calls, not at least one) and
writes nothing to the active flag (in particular it does not set it to
false), so the flag stays true. -/
theorem waitForActiveRun_c1_cex :
    (waitForActiveRun (fun _ => true) 3 10).ok = false ∧
    (waitForActiveRun (fun _ => true) 3 10).sleptMs = 30 ∧
    ¬ 1 ≤ (waitForActiveRun (fun _ => true) 3 10).cancelCalls ∧
    ¬ (waitForActiveRun (fun _ => true) 3 10).setsFlag = some false := by
  decide

/-- Claim C2 (amended).  The admission operation never consults the remote
run listing — its listing-call count is zero for every input — and its
outcome is determined by the local flag alone: it succeeds exactly when
some poll within the retry budget observes the local flag false. -/
theorem waitForActiveRun_local_flag_only (flag : Nat → Bool)
    (maxRetries : Int) (delay : Nat) :
    (waitForActiveRun flag maxRetries delay).listCalls = 0 ∧
    ((waitForActiveRun flag maxRetries delay).ok = true ↔
      ∃ j, j < maxRetries.toNat ∧ flag j = false) := by
  constructor
  · exact waitForActiveRunGo_listCalls_zero flag delay maxRetries.toNat 0
  · simpa using waitForActiveRunGo_ok_iff flag delay maxRetries.toNat 0

/-- Counterexample to C2 as frozen: with the local flag true at every poll
(where the claim requires a remote run-listing consultation, and — had the
listing shown no live run — a cleared flag and immediate success) the code
issues zero listing calls, writes nothing to the flag, and fails after
exhausting its retries. -/
theorem waitForActiveRun_c2_cex :
    (waitForActiveRun (fun _ => true) 5 10).listCalls = 0 ∧
    (waitForActiveRun (fun _ => true) 5 10).ok = false ∧
    (waitForActiveRun (fun _ => true) 5 10).setsFlag = none := by
  decide

/-- Claim C3 (amended).  Any invocation of the stream processor leaves the
active flag false (the finally-style guard clears it), and a stream-level
exception emits the stream-connection error frame and closes the channel
instead of propagating; but the guard belongs to every invocation, each
recursive resumption included, not to a single outermost wrapper (see the
counterexample for a double clear). -/
theorem handleStream_clears_on_terminal (cfg : Config) (events : List Event)
    (serr : Bool) (st : ProcState) (h : cfg.threadKnown = true)
    (h2 : st.res.writableEnded = false) (h3 : st.res.writeError = false) :
    (handleStream cfg events serr st).active = false ∧
    (handleStream cfg [] true st).res.frames =
      st.res.frames ++
        [{ type := "error", content := "Stream connection error" }] ∧
    (handleStream cfg [] true st).res.writableEnded = true := by
  refine ⟨?_, ?_, ?_⟩
  · simp [handleStream, clearFinally, h]
  · simp [handleStream, handleLoop, clearFinally, h, streamErrorHandler,
          sendStreamResponse, Channel.write, Channel.endCh, h2, h3]
  · simp [handleStream, handleLoop, clearFinally, h, streamErrorHandler,
          sendStreamResponse, Channel.write, Channel.endCh, h2, h3]

/-- Witness for C3 at a run-completed stream and at a stream that throws
immediately. -/
theorem handleStream_clears_on_terminal_witness :
    (handleStream nestedCfg [Event.runCompleted] false initState).active
        = false ∧
    (handleStream nestedCfg [] true initState).res.frames =
      initState.res.frames ++
        [{ type := "error", content := "Stream connection error" }] ∧
    (handleStream nestedCfg [] true initState).res.writableEnded = true :=
  handleStream_clears_on_terminal nestedCfg [Event.runCompleted] false
    initState rfl rfl rfl

/-- Counterexample to C3 as frozen: one requires-action event with a
successful tool call whose continuation stream ends with run-completed.
The active flag is cleared twice — once by the finally guard of the nested
resumption and once by the outer invocation — not exactly once through a
guard wrapping only the outermost invocation (the flag does end up
false). -/
theorem handleStream_clears_twice_cex :
    (handleStream nestedCfg [nestedEvent] false initState).clears = 2 ∧
    (handleStream nestedCfg [nestedEvent] false initState).active = false := by
  constructor <;>
  simp [handleStream, handleLoop, handleEvent, handleToolOutputs,
        handleFunctionCall, handleFunctionCallExt, submitAndResume,
        handleFunctionError, clearFinally, streamErrorHandler,
        sendStreamResponse, Channel.write, Channel.endCh, setField,
        nestedCfg, nestedCall, nestedEvent, initState, freshChannel]

/-- Claim C4 (amended).  The dispatcher probes the internal source first
and uses its result without touching the external source when the internal
handler returns a truthy result — even though the external source also has
a matching module; when neither source has a matching module it submits a
failure Tool Result whose message is Function execution failed (not
Function not found.) without invoking any handler; the standalone resolver
getFunctionHandler does pick the first source with an existing module. -/
theorem dispatcher_resolution_order (dIn dExt : String) :
    (handleFunctionCall (resolveCfg dIn dExt) winCall [] false
        initState).invoked = [("avr_functions", "win")] ∧
    (handleFunctionCall (resolveCfg dIn dExt) winCall [] false
        initState).submissions =
      [{ outputs := [("cw", ToolOutput.data dIn)] }] ∧
    (handleFunctionCall (resolveCfg dIn dExt) absentCall [] false
        initState).invoked = [] ∧
    (handleFunctionCall (resolveCfg dIn dExt) absentCall [] false
        initState).submissions =
      [{ outputs :=
          [("cn", ToolOutput.failure "Function execution failed")] }] ∧
    getFunctionHandler (fun _ => true) (fun _ => true) "win" =
      Except.ok (HandlerPath.avrPath "win") := by
  refine ⟨?_, ?_, ?_, ?_, ?_⟩ <;>
  simp [handleFunctionCall, handleFunctionCallExt, submitAndResume,
        handleStream, handleLoop, handleEvent, handleFunctionError,
        clearFinally, streamErrorHandler, sendStreamResponse, Channel.write,
        Channel.endCh, setField, resolveCfg, winCall, absentCall, initState,
        freshChannel, getFunctionHandler]

/-- Counterexample to C4 as frozen: when the internal source has a matching
module whose handler returns a falsy value, the external handler for the
same name is additionally executed and its result is the one submitted; and
when no source matches, the submitted failure message is Function execution
failed, not Function not found. -/
theorem dispatcher_second_source_executes_cex :
    (handleFunctionCall overrideCfg overrideCall [] false
        initState).invoked = [("avr_functions", "f"), ("functions", "f")] ∧
    (handleFunctionCall overrideCfg overrideCall [] false
        initState).submissions =
      [{ outputs := [("c1", ToolOutput.data "X")] }] ∧
    (handleFunctionCall overrideCfg overrideAbsentCall [] false
        initState).submissions =
      [{ outputs :=
          [("c2", ToolOutput.failure "Function execution failed")] }] ∧
    ¬ (handleFunctionCall overrideCfg overrideAbsentCall [] false
        initState).submissions =
      [{ outputs := [("c2", ToolOutput.failure "Function not found.")] }] := by
  refine ⟨?_, ?_, ?_, ?_⟩ <;>
  simp [handleFunctionCall, handleFunctionCallExt, submitAndResume,
        handleStream, handleLoop, handleEvent, handleFunctionError,
        clearFinally, streamErrorHandler, sendStreamResponse, Channel.write,
        Channel.endCh, setField, overrideCfg, overrideCall,
        overrideAbsentCall, initState, freshChannel]

/-- Claim C5.  A requires-action event whose single function tool call
carries arguments that fail to parse as JSON makes the processor submit
exactly one failure Tool Result with message Invalid function arguments
back to the remote run, invoke no handler, and complete its turn normally
(its finally guard runs and the flag ends false) for every continuation
stream — the processor does not crash. -/
theorem invalid_args_failure_submitted (cfg : Config) (callId fname : String)
    (cont : List Event) (cerr : Bool) (st : ProcState)
    (h : cfg.threadKnown = true) :
    (handleStream cfg
        [Event.requiresAction "submit_tool_outputs"
          [({ id := callId, ctype := "function", name := fname,
              args := none }, cont, cerr)]] false st).submissions =
      st.submissions ++
        [{ outputs :=
            [(callId, ToolOutput.failure "Invalid function arguments")] }] ∧
    (handleStream cfg
        [Event.requiresAction "submit_tool_outputs"
          [({ id := callId, ctype := "function", name := fname,
              args := none }, cont, cerr)]] false st).invoked = st.invoked ∧
    (handleStream cfg
        [Event.requiresAction "submit_tool_outputs"
          [({ id := callId, ctype := "function", name := fname,
              args := none }, cont, cerr)]] false st).clears =
      st.clears + 1 ∧
    (handleStream cfg
        [Event.requiresAction "submit_tool_outputs"
          [({ id := callId, ctype := "function", name := fname,
              args := none }, cont, cerr)]] false st).active = false := by
  refine ⟨?_, ?_, ?_, ?_⟩ <;>
  simp [handleStream, handleLoop, handleEvent, handleToolOutputs,
        handleFunctionCall, handleFunctionError, clearFinally,
        streamErrorHandler, sendStreamResponse, Channel.write,
        Channel.endCh, h]

/-- Witness for C5: a concrete bad-arguments call against a source that
does carry the named module. -/
theorem invalid_args_failure_submitted_witness :
    (handleStream badArgsCfg
        [Event.requiresAction "submit_tool_outputs"
          [({ id := "c9", ctype := "function", name := "g",
              args := none }, [Event.runCompleted], false)]] false
        initState).submissions =
      initState.submissions ++
        [{ outputs :=
            [("c9", ToolOutput.failure "Invalid function arguments")] }] ∧
    (handleStream badArgsCfg
        [Event.requiresAction "submit_tool_outputs"
          [({ id := "c9", ctype := "function", name := "g",
              args := none }, [Event.runCompleted], false)]] false
        initState).invoked = initState.invoked ∧
    (handleStream badArgsCfg
        [Event.requiresAction "submit_tool_outputs"
          [({ id := "c9", ctype := "function", name := "g",
              args := none }, [Event.runCompleted], false)]] false
        initState).clears = initState.clears + 1 ∧
    (handleStream badArgsCfg
        [Event.requiresAction "submit_tool_outputs"
          [({ id := "c9", ctype := "function", name := "g",
              args := none }, [Event.runCompleted], false)]] false
        initState).active = false :=
  invalid_args_failure_submitted badArgsCfg "c9" "g" [Event.runCompleted]
    false initState rfl

/-- Claim C6 (amended).  A requires-action event with two function tool
calls produces two submission calls, each carrying exactly the one Tool
Result of its call — not a single batched submission — and the processor
resumes consumption on the continuation stream returned by each
submission (their text deltas are forwarded in order, and the finally
guard runs once per invocation: twice nested plus once outer). -/
theorem toolResults_submitted_per_call (d1 d2 v1 v2 : String) :
    (handleStream (twoCallsCfg d1 d2) [twoCallsEvent v1 v2] false
        initState).submissions =
      [{ outputs := [("c1", ToolOutput.data d1)] },
       { outputs := [("c2", ToolOutput.data d2)] }] ∧
    (handleStream (twoCallsCfg d1 d2) [twoCallsEvent v1 v2] false
        initState).res.frames =
      [{ type := "text", content := v1 },
       { type := "text", content := v2 }] ∧
    (handleStream (twoCallsCfg d1 d2) [twoCallsEvent v1 v2] false
        initState).clears = 3 := by
  refine ⟨?_, ?_, ?_⟩ <;>
  simp [handleStream, handleLoop, handleEvent, handleToolOutputs,
        handleFunctionCall, handleFunctionCallExt, submitAndResume,
        handleFunctionError, clearFinally, streamErrorHandler,
        sendStreamResponse, Channel.write, Channel.endCh, setField,
        twoCallsCfg, twoCallsEvent, initState, freshChannel]

/-- Counterexample to C6 as frozen: a requires-action event carrying two
tool calls yields two submission calls of one Tool Result each, not one
batch submission carrying both results. -/
theorem toolResults_not_batched_cex :
    (handleStream (twoCallsCfg "D1" "D2") [twoCallsEvent "a" "b"] false
        initState).submissions.length = 2 ∧
    (handleStream (twoCallsCfg "D1" "D2") [twoCallsEvent "a" "b"] false
        initState).submissions.map (fun s => s.outputs.length) = [1, 1] := by
  constructor <;>
  simp [handleStream, handleLoop, handleEvent, handleToolOutputs,
        handleFunctionCall, handleFunctionCallExt, submitAndResume,
        handleFunctionError, clearFinally, streamErrorHandler,
        sendStreamResponse, Channel.write, Channel.endCh, setField,
        twoCallsCfg, twoCallsEvent, initState, freshChannel]

/-- Claim C7.  Each event kind of the state-machine table, fed in
isolation on a fresh turn, produces exactly the specified frames and no
others: a text message delta emits one text frame with the fragment value;
run-completed emits the completed status frame and closes the channel;
run-failed emits the run-failed error frame and closes the channel; a
requires-action of a non-submit-tool-outputs subtype emits the unsupported
action error frame; an unrecognized kind emits nothing. -/
theorem handleStream_event_table (cfg : Config) (v ratype : String)
    (calls : List (ToolCall × List Event × Bool))
    (h : ratype ≠ "submit_tool_outputs") :
    (handleStream cfg [Event.messageDelta [Content.text v]] false
        initState).res.frames = [{ type := "text", content := v }] ∧
    (handleStream cfg [Event.runCompleted] false initState).res.frames =
      [{ type := "status", content := "completed" }] ∧
    (handleStream cfg [Event.runCompleted] false
        initState).res.writableEnded = true ∧
    (handleStream cfg [Event.runFailed] false initState).res.frames =
      [{ type := "error", content := "Assistant run failed" }] ∧
    (handleStream cfg [Event.runFailed] false
        initState).res.writableEnded = true ∧
    (handleStream cfg [Event.requiresAction ratype calls] false
        initState).res.frames =
      [{ type := "error", content := "Unsupported action type" }] ∧
    (handleStream cfg [Event.unknown] false initState).res.frames = [] := by
  refine ⟨?_, ?_, ?_, ?_, ?_, ?_, ?_⟩ <;>
  · simp [handleStream, handleLoop, handleEvent, clearFinally,
          streamErrorHandler, sendStreamResponse, Channel.write,
          Channel.endCh, initState, freshChannel, h]
    split <;> rfl

/-- Witness for C7 with the spec test vector (fragment Hello) and the
non-submit action subtype other. -/
theorem handleStream_event_table_witness :
    (handleStream tableCfg [Event.messageDelta [Content.text "Hello"]] false
        initState).res.frames = [{ type := "text", content := "Hello" }] ∧
    (handleStream tableCfg [Event.runCompleted] false initState).res.frames =
      [{ type := "status", content := "completed" }] ∧
    (handleStream tableCfg [Event.runCompleted] false
        initState).res.writableEnded = true ∧
    (handleStream tableCfg [Event.runFailed] false initState).res.frames =
      [{ type := "error", content := "Assistant run failed" }] ∧
    (handleStream tableCfg [Event.runFailed] false
        initState).res.writableEnded = true ∧
    (handleStream tableCfg [Event.requiresAction "other" []] false
        initState).res.frames =
      [{ type := "error", content := "Unsupported action type" }] ∧
    (handleStream tableCfg [Event.unknown] false initState).res.frames = [] :=
  handleStream_event_table tableCfg "Hello" "other" [] (by decide)

/-- Claim C8.  Sending a frame is the identity on the channel whenever the
channel is already ended (the no-op-after-close check) or the underlying
write throws (the exception is caught, never re-thrown): in both cases the
framer returns normally with the channel unchanged, so a send never aborts
the stream processor. -/
theorem sendStreamResponse_noop_safe (res : Channel) (data : Frame)
    (h : res.writableEnded = true ∨ res.writeError = true) :
    sendStreamResponse res data = res := by
  rcases h with h | h
  · simp [sendStreamResponse, h]
  · by_cases he : res.writableEnded
    · simp [sendStreamResponse, he]
    · simp [sendStreamResponse, he, Channel.write, h]

/-- Witness for C8 on an ended channel and on a broken-socket channel. -/
theorem sendStreamResponse_noop_safe_witness :
    sendStreamResponse { writableEnded := true, writeError := false,
                         frames := [] } { type := "text", content := "x" } =
      { writableEnded := true, writeError := false, frames := [] } ∧
    sendStreamResponse { writableEnded := false, writeError := true,
                         frames := [] } { type := "text", content := "x" } =
      { writableEnded := false, writeError := true, frames := [] } :=
  ⟨sendStreamResponse_noop_safe _ _ (Or.inl rfl),
   sendStreamResponse_noop_safe _ _ (Or.inr rfl)⟩

/-- Claim C9 (amended).  Once a handle is stored for the identifier, every
schedule of further steps issues no additional create call and keeps the
stored handle — later requests reuse it; the at-most-one-creation
guarantee does not, however, survive concurrent first-requests (see the
counterexample, where two interleaved first-requests each create a
handle). -/
theorem registry_reuses_existing_handle (s : RegState) (sched : List Nat)
    (h : s.thread.isSome = true) :
    (runSched s sched).created = s.created ∧
    (runSched s sched).thread.isSome = true := by
  induction sched generalizing s with
  | nil => exact ⟨rfl, h⟩
  | cons i rest ih =>
    have hstep := stepTask_preserves_handle s i h
    have := ih (stepTask s i) hstep.2
    simp only [runSched, List.foldl] at *
    exact ⟨by rw [this.1, hstep.1], this.2⟩

/-- Witness for C9: a registry that already stores a handle, run under an
interleaved schedule of two tasks. -/
theorem registry_reuses_existing_handle_witness :
    (runSched { thread := some 0, created := 1,
                pcs := [TaskPc.start, TaskPc.start] } [0, 1, 0, 1]).created
        = 1 ∧
    (runSched { thread := some 0, created := 1,
                pcs := [TaskPc.start, TaskPc.start] }
        [0, 1, 0, 1]).thread.isSome = true :=
  registry_reuses_existing_handle _ _ rfl

/-- Counterexample to C9 as frozen: two concurrent first-requests for the
same unseen identifier, interleaved so that both pass the existence check
before either stores, issue two remote create calls — not at most one. -/
theorem registry_race_two_creates_cex :
    (runSched (initReg 2) [0, 1, 0, 1]).created = 2 := by decide

/-- Claim C10.  With a retry count less than or equal to zero the admission
loop body never runs: `waitForActiveRun` returns false after zero reads of
the active flag — even when no run is active — and the caller rejects the
request as an admission conflict. -/
theorem waitForActiveRun_nonpos_retries (flag : Nat → Bool)
    (maxRetries : Int) (delay : Nat) (h : maxRetries ≤ 0) :
    (waitForActiveRun flag maxRetries delay).ok = false ∧
    (waitForActiveRun flag maxRetries delay).checks = 0 ∧
    admissionGate (waitForActiveRun flag maxRetries delay).ok =
      PromptOutcome.rejectedActive := by
  have h0 : maxRetries.toNat = 0 := Int.toNat_of_nonpos h
  simp [waitForActiveRun, h0, waitForActiveRunGo, admissionGate]

/-- Witness for C10 at retry count -2 with a flag that is false (no active
run). -/
theorem waitForActiveRun_nonpos_retries_witness :
    (waitForActiveRun (fun _ => false) (-2) 7).ok = false ∧
    (waitForActiveRun (fun _ => false) (-2) 7).checks = 0 ∧
    admissionGate (waitForActiveRun (fun _ => false) (-2) 7).ok =
      PromptOutcome.rejectedActive :=
  waitForActiveRun_nonpos_retries (fun _ => false) (-2) 7 (by decide)

end Avr
